import Mathlib

/-!
Shallow embedding of `src/server.py` (session-scoped chat proxy).

The SQLite table `messages` is modelled as a list of rows in insertion
(rowid) order.  `save_message` appends a row; the Python function body has
no `return` statement, so its value is `None`, modelled as the second
component `none` of the returned pair.  `get_history` embeds the query
`SELECT role, content, created_at FROM messages WHERE session_id = ?
ORDER BY created_at DESC LIMIT ?` with the bound `limit * 2`: `ORDER BY
created_at DESC` is modelled by an insertion sort on `created_at`
(descending; ties keep a fixed, implementation-stable order — SQLite leaves
tie order unspecified), and `LIMIT n` follows SQLite semantics: a negative
`n` means no limit.  Python `str.strip` is modelled by `String.trim`
(both remove surface whitespace from the two ends).  Python truthiness in
`payload.session_id or str(uuid.uuid4())` and `payload.history_limit or 10`
is modelled explicitly (`""` and `0` are falsy).  External effects — the
uuids from `uuid.uuid4()`, the clock values from `int(time.time())` and the
provider call `genai.create_text` — enter the `chat` pipeline as explicit
parameters; a raised exception is an `Except.error` value, and the database
state reached before the raise is returned alongside it (committed writes
are not rolled back).
-/

namespace AIChat

/-- One row of the `messages` table:
`id, session_id, role, content, created_at`. -/
structure Row where
  id : String
  session_id : String
  role : String
  content : String
  created_at : Int
  deriving DecidableEq, Repr

/-- The projection `SELECT role, content, created_at` returned by
`get_history` (the Python code turns each row into a dict of these three
fields). -/
structure Msg where
  role : String
  content : String
  created_at : Int
  deriving DecidableEq, Repr

/-- The `messages` table, in insertion (rowid) order. -/
abbrev DB := List Row

/-- Projection of a row to the three selected columns. -/
def toMsg (r : Row) : Msg := ⟨r.role, r.content, r.created_at⟩

/-- `WHERE session_id = ?`: the rows of one session, in insertion order. -/
def rowsFor (session_id : String) (db : DB) : List Row :=
  db.filter (fun r => r.session_id == session_id)

/-- Insert a row into a list sorted by `created_at` descending (a row with
an equal timestamp stays in front: a fixed, implementation-stable
tie-break). -/
def insertDesc (r : Row) : List Row → List Row
  | [] => [r]
  | x :: xs =>
    if r.created_at ≤ x.created_at then x :: insertDesc r xs
    else r :: x :: xs

/-- `ORDER BY created_at DESC`, modelled as insertion sort. -/
def orderByCreatedAtDesc : List Row → List Row
  | [] => []
  | x :: xs => insertDesc x (orderByCreatedAtDesc xs)

/-- SQLite `LIMIT n`: first `n` rows when `n ≥ 0`; a negative `n` means no
limit at all. -/
def sqlLimit (n : Int) (l : List Row) : List Row :=
  if n < 0 then l else l.take n.toNat

/-- `save_message(session_id, role, content)` (server.py lines 67-76).
The fresh uuid `mid` and the clock value `now` are passed in explicitly.
The INSERT appends one row; the Python function has no return statement,
so the call evaluates to `None` — the `none` in the second component. -/
def save_message (db : DB) (session_id role content : String)
    (mid : String) (now : Int) : DB × Option Row :=
  (db ++ [⟨mid, session_id, role, content, now⟩], none)

/-- `get_history(session_id, limit)` (server.py lines 78-89): select the
session rows, order newest-first, apply `LIMIT limit * 2`, reverse to
oldest-first and project each row to its dict. -/
def get_history (db : DB) (session_id : String) (limit : Int) : List Msg :=
  let rows := sqlLimit (limit * 2) (orderByCreatedAtDesc (rowsFor session_id db))
  (rows.reverse).map toMsg

/-- The fixed greeting text seeded into an empty session. -/
def greeting : String := "Hello! I\x27m ready to help. Ask me anything."

/-- The `/chat` request payload (server.py lines 58-61).  `history_limit`
is `some 10` when the field is absent (the pydantic default) and `none`
when the payload explicitly sets it to null. -/
structure ChatRequest where
  session_id : Option String
  text : String
  history_limit : Option Int
  deriving DecidableEq, Repr

/-- Python `payload.session_id or str(uuid.uuid4())`: `None` and the empty
string are falsy, so both take the fresh uuid. -/
def resolveSessionId (p : ChatRequest) (fresh : String) : String :=
  match p.session_id with
  | none => fresh
  | some s => if s = "" then fresh else s

/-- Python `payload.history_limit or 10`: `None` and `0` are falsy, so both
become the default 10. -/
def pyOrTen (o : Option Int) : Int :=
  match o with
  | none => 10
  | some l => if l = 0 then 10 else l

/-- Python `str.strip()` on a character list: whitespace removed from both
ends. -/
def pyStripList (l : List Char) : List Char :=
  ((l.dropWhile Char.isWhitespace).reverse.dropWhile Char.isWhitespace).reverse

/-- Python `str.strip()`: surface whitespace removed from both ends. -/
def pyStrip (s : String) : String := ⟨pyStripList s.data⟩

/-- Server.py lines 111-114: if the history read with limit
`payload.history_limit or 10` comes back empty, seed the session with the
assistant greeting.  (The refetch at line 114 has no further effect on the
stored data; the `history` variable is not used afterwards.) -/
def seedIfEmpty (db : DB) (session_id : String) (lim : Int)
    (seedId : String) (tSeed : Int) : DB :=
  if (get_history db session_id lim).length = 0 then
    (save_message db session_id "assistant" greeting seedId tSeed).1
  else db

/-- One rendered prompt line (server.py lines 124-130): `"User: "` for role
`"user"`, `"Assistant: "` for every other role string, followed by the
stripped content. -/
def renderLine (m : Msg) : String :=
  let content := pyStrip m.content
  if m.role = "user" then "User: " ++ content
  else "Assistant: " ++ content

/-- `prompt_lines` (server.py lines 123-132): one line per fetched turn,
then always the new user text as the final line. -/
def promptLines (convo : List Msg) (text : String) : List String :=
  (convo.map renderLine) ++ ["User: " ++ text]

/-- The prompt string sent to the provider (server.py line 133). -/
def buildPrompt (convo : List Msg) (text : String) : String :=
  String.intercalate "\n" (promptLines convo text) ++ "\nAssistant:"

/-- The role-label mapping exactly as the spec words it: User maps to
`"User"`, Assistant maps to `"Assistant"`, and nothing else is in the
spec's role enum (other strings get a junk label that the comparison
theorem's hypothesis rules out). -/
def specRoleLabel (r : String) : String :=
  if r = "user" then "User"
  else if r = "assistant" then "Assistant"
  else "<invalid-role>"

/-- How a `/chat` request can fail: the unhandled `TypeError` from
`None * 2` inside `get_history`, or the `HTTPException(500)` wrapping a
provider exception. -/
inductive ChatError where
  | typeError
  | providerError (detail : String)
  deriving DecidableEq, Repr

/-- The success payload of `/chat`. -/
structure ChatResp where
  session_id : String
  reply : String
  deriving DecidableEq, Repr

/-- The database state reached after server.py line 117: the session is
resolved, seeded if empty, and the incoming user turn has been saved. -/
def dbAfterUserSave (db : DB) (p : ChatRequest)
    (freshSid seedId userId : String) (tSeed tUser : Int) : DB :=
  let session_id := resolveSessionId p freshSid
  let db1 := seedIfEmpty db session_id (pyOrTen p.history_limit) seedId tSeed
  (save_message db1 session_id "user" p.text userId tUser).1

/-- The `/chat` endpoint (server.py lines 105-151), state-passing over the
database.  `freshSid`, `seedId`, `userId`, `asstId` are the uuids minted on
each path, `tSeed`, `tUser`, `tAsst` the clock readings, and `provider` the
opaque generation call.  Whatever the outcome, the database reached so far
is returned: committed writes persist through a raised exception.  When
`history_limit` is the explicit null, line 122 evaluates `None * 2` inside
`get_history` and the unhandled `TypeError` aborts the request. -/
def chat (db : DB) (p : ChatRequest)
    (freshSid seedId userId asstId : String) (tSeed tUser tAsst : Int)
    (provider : String → Except String String) :
    DB × Except ChatError ChatResp :=
  let session_id := resolveSessionId p freshSid
  let db2 := dbAfterUserSave db p freshSid seedId userId tSeed tUser
  match p.history_limit with
  | none => (db2, .error .typeError)
  | some l =>
    let convo := get_history db2 session_id l
    let prompt := buildPrompt convo p.text
    match provider prompt with
    | .error e => (db2, .error (.providerError ("Model error: " ++ e)))
    | .ok ai_text =>
      let db3 := (save_message db2 session_id "assistant" ai_text asstId tAsst).1
      (db3, .ok ⟨session_id, ai_text⟩)

/-- The timestamps of a row sequence are non-decreasing in insertion order
(what `int(time.time())` produces under normal clock behavior). -/
def Chrono (l : List Row) : Prop :=
  l.Pairwise (fun a b => a.created_at ≤ b.created_at)

/-- Boolean checker for `Chrono`. -/
def chronoB : List Row → Bool
  | [] => true
  | x :: xs => (xs.all fun y => decide (x.created_at ≤ y.created_at)) && chronoB xs

theorem chrono_iff (l : List Row) : Chrono l ↔ chronoB l = true := by
  induction l with
  | nil => simp [Chrono, chronoB]
  | cons x xs ih =>
    simp [Chrono, chronoB, List.pairwise_cons, List.all_eq_true, ← ih]

instance (l : List Row) : Decidable (Chrono l) :=
  decidable_of_iff (chronoB l = true) (chrono_iff l).symm

/-- A sequence of `save_message` calls; each `Row` packs the arguments of
one call (its fresh uuid, session, role, content and clock reading). -/
def appendAll (db : DB) (calls : List Row) : DB :=
  calls.foldl
    (fun d c => (save_message d c.session_id c.role c.content c.id c.created_at).1) db

section Lemmas

theorem insertDesc_length (r : Row) (l : List Row) :
    (insertDesc r l).length = l.length + 1 := by
  induction l with
  | nil => rfl
  | cons x xs ih =>
    simp only [insertDesc]
    split <;> simp [ih]

theorem orderByCreatedAtDesc_length (l : List Row) :
    (orderByCreatedAtDesc l).length = l.length := by
  induction l with
  | nil => rfl
  | cons x xs ih => simp [orderByCreatedAtDesc, insertDesc_length, ih]

theorem insertDesc_eq_append (r : Row) (l : List Row)
    (h : ∀ y ∈ l, r.created_at ≤ y.created_at) :
    insertDesc r l = l ++ [r] := by
  induction l with
  | nil => rfl
  | cons x xs ih =>
    simp only [insertDesc]
    rw [if_pos (h x (List.mem_cons_self x xs)),
      ih (fun y hy => h y (List.mem_cons_of_mem x hy))]
    rfl

/-- Under non-decreasing timestamps, `ORDER BY created_at DESC` is exactly
the reverse of insertion order. -/
theorem orderByCreatedAtDesc_of_chrono (l : List Row) (h : Chrono l) :
    orderByCreatedAtDesc l = l.reverse := by
  induction l with
  | nil => rfl
  | cons x xs ih =>
    simp only [Chrono, List.pairwise_cons] at h
    simp only [orderByCreatedAtDesc, ih h.2]
    rw [insertDesc_eq_append x xs.reverse
      (fun y hy => h.1 y (List.mem_reverse.mp hy))]
    simp

theorem get_history_of_chrono (db : DB) (sid : String) (L : Int)
    (h : Chrono (rowsFor sid db)) :
    get_history db sid L
      = ((sqlLimit (L * 2) ((rowsFor sid db).reverse)).reverse).map toMsg := by
  unfold get_history
  rw [orderByCreatedAtDesc_of_chrono _ h]

/-- For a non-negative limit, under non-decreasing timestamps, the read is
the suffix of the session rows of length at most `(L * 2).toNat`,
oldest-first. -/
theorem get_history_nonneg_chrono (db : DB) (sid : String) (L : Int)
    (hL : 0 ≤ L) (h : Chrono (rowsFor sid db)) :
    get_history db sid L
      = ((rowsFor sid db).drop
          ((rowsFor sid db).length - (L * 2).toNat)).map toMsg := by
  rw [get_history_of_chrono db sid L h]
  have hnn : ¬ L * 2 < 0 := by omega
  rw [sqlLimit, if_neg hnn, ← List.rtake_eq_reverse_take_reverse, List.rtake]

theorem appendAll_eq_append (db : DB) (calls : List Row) :
    appendAll db calls = db ++ calls := by
  induction calls generalizing db with
  | nil => simp [appendAll]
  | cons c cs ih =>
    simp only [appendAll, List.foldl_cons] at *
    rw [ih]
    simp [save_message]

theorem pyOrTen_ne_zero (o : Option Int) : pyOrTen o ≠ 0 := by
  cases o with
  | none => simp [pyOrTen]
  | some l =>
    simp only [pyOrTen]
    split <;> omega

/-- The seed check at server.py line 112 is accurate: for every limit the
code can pass there (`payload.history_limit or 10`, never `0`), the read
comes back empty exactly when the session has no rows at all. -/
theorem get_history_length_eq_zero_iff (db : DB) (sid : String) (L : Int)
    (hL : L ≠ 0) :
    (get_history db sid L).length = 0 ↔ rowsFor sid db = [] := by
  unfold get_history sqlLimit
  by_cases h : L * 2 < 0
  · rw [if_pos h]
    simp only [List.length_map, List.length_reverse, orderByCreatedAtDesc_length]
    exact List.length_eq_zero
  · rw [if_neg h]
    simp only [List.length_map, List.length_reverse, List.length_take,
      orderByCreatedAtDesc_length]
    rw [← List.length_eq_zero (l := rowsFor sid db)]
    omega

end Lemmas

instance {ε α : Type} [DecidableEq ε] [DecidableEq α] :
    DecidableEq (Except ε α) := fun x y =>
  match x, y with
  | .error e, .error f => decidable_of_iff (e = f) (by simp)
  | .error _, .ok _ => .isFalse (by simp)
  | .ok _, .error _ => .isFalse (by simp)
  | .ok a, .ok b => decidable_of_iff (a = b) (by simp)

/-- C1 (amended): with `LIMIT limit * 2` in the query, `get_history` with a
positive limit `N` returns at most `2 * N` turns, and when the session
holds at least `2 * N` turns it returns exactly the `2 * N` most recently
created ones (the suffix in creation order), presented oldest-first. -/
theorem get_history_window_bound (db : DB) (sid : String) (N : Int)
    (hN : 0 < N) (hC : Chrono (rowsFor sid db)) :
    (get_history db sid N).length ≤ 2 * N.toNat ∧
    (2 * N.toNat ≤ (rowsFor sid db).length →
      get_history db sid N
        = ((rowsFor sid db).drop
            ((rowsFor sid db).length - 2 * N.toNat)).map toMsg) := by
  have h2 : (N * 2).toNat = 2 * N.toNat := by omega
  have he := get_history_nonneg_chrono db sid N (le_of_lt hN) hC
  constructor
  · rw [he]
    simp only [List.length_map, List.length_drop]
    omega
  · intro hbig
    rw [he, h2]

/-- C1, witness: a session of two chronological turns read with `N = 1`
realizes both conjuncts of `get_history_window_bound`. -/
theorem get_history_window_bound_witness :
    (0 : Int) < 1 ∧
    Chrono (rowsFor "s" [⟨"a", "s", "user", "x", 1⟩, ⟨"b", "s", "assistant", "y", 2⟩]) ∧
    ((get_history [⟨"a", "s", "user", "x", 1⟩, ⟨"b", "s", "assistant", "y", 2⟩] "s" 1).length
        ≤ 2 * (1 : Int).toNat ∧
      (2 * (1 : Int).toNat
          ≤ (rowsFor "s" [⟨"a", "s", "user", "x", 1⟩, ⟨"b", "s", "assistant", "y", 2⟩]).length →
        get_history [⟨"a", "s", "user", "x", 1⟩, ⟨"b", "s", "assistant", "y", 2⟩] "s" 1
          = ((rowsFor "s" [⟨"a", "s", "user", "x", 1⟩, ⟨"b", "s", "assistant", "y", 2⟩]).drop
              ((rowsFor "s" [⟨"a", "s", "user", "x", 1⟩, ⟨"b", "s", "assistant", "y", 2⟩]).length
                - 2 * (1 : Int).toNat)).map toMsg)) :=
  ⟨by decide, by decide,
    get_history_window_bound [⟨"a", "s", "user", "x", 1⟩, ⟨"b", "s", "assistant", "y", 2⟩]
      "s" 1 (by decide) (by decide)⟩

/-- C1, counterexample to the claim as stated: a session holding three
turns with strictly increasing timestamps, read with `N = 2`, yields three
turns — more than `N`, because the query bound is `limit * 2`. -/
theorem get_history_window_bound_cex :
    ¬ ((get_history
          [⟨"a", "s", "user", "x", 1⟩, ⟨"b", "s", "user", "y", 2⟩, ⟨"c", "s", "user", "z", 3⟩]
          "s" 2).length ≤ 2) := by decide

/-- C2 (amended): a limit of exactly `0` yields the empty sequence, but a
negative limit makes the SQL bound `limit * 2` negative, which SQLite
treats as "no limit": the read returns the entire transcript oldest-first.
Neither case raises an error. -/
theorem get_history_nonpos_limit (db : DB) (sid : String) (L : Int)
    (hL : L ≤ 0) (hC : Chrono (rowsFor sid db)) :
    get_history db sid L
      = if L = 0 then [] else (rowsFor sid db).map toMsg := by
  by_cases h0 : L = 0
  · subst h0
    simp [get_history, sqlLimit]
  · rw [if_neg h0]
    rw [get_history_of_chrono db sid L hC]
    have hneg : L * 2 < 0 := by omega
    rw [sqlLimit, if_pos hneg]
    simp

/-- C2, witness: reading one stored turn with limit `-1` goes through the
negative branch of `get_history_nonpos_limit`. -/
theorem get_history_nonpos_limit_witness :
    (-1 : Int) ≤ 0 ∧
    Chrono (rowsFor "s" [⟨"a", "s", "user", "x", 5⟩]) ∧
    get_history [⟨"a", "s", "user", "x", 5⟩] "s" (-1)
      = if (-1 : Int) = 0 then []
        else (rowsFor "s" [⟨"a", "s", "user", "x", 5⟩]).map toMsg :=
  ⟨by decide, by decide,
    get_history_nonpos_limit [⟨"a", "s", "user", "x", 5⟩] "s" (-1) (by decide) (by decide)⟩

/-- C2, counterexample to the claim as stated: with limit `-1` a session
holding one turn does not come back empty — the negative SQL LIMIT returns
everything. -/
theorem get_history_nonpos_limit_cex :
    get_history [⟨"a", "s", "user", "x", 5⟩] "s" (-1) ≠ [] := by decide

/-- C8 (amended): `save_message` appends exactly one row carrying the
supplied fresh id and clock value, leaves every previously stored row in
place, and — its Python body having no return statement — hands `None`
back to its caller, not the written Turn. -/
theorem save_message_writes_and_returns_none (db : DB)
    (sid role content mid : String) (now : Int) :
    (save_message db sid role content mid now).1
        = db ++ [⟨mid, sid, role, content, now⟩] ∧
    (save_message db sid role content mid now).1.length = db.length + 1 ∧
    (save_message db sid role content mid now).2 = none :=
  ⟨rfl, by simp [save_message], rfl⟩

/-- C8, counterexample to the "returns the written Turn" part of the
claim: a concrete call returns no Turn at all. -/
theorem save_message_no_return_cex :
    ¬ ∃ t : Row, (save_message [] "s" "user" "hi" "m0" 0).2 = some t :=
  fun ⟨_, h⟩ => Option.noConfusion h

/-- C3: when the provider call made by `/chat` fails, the whole request
fails with the wrapped provider error, and the store afterwards is exactly
the state reached after saving the user turn: the new user turn is
persisted (not rolled back) and the set of assistant rows is unchanged
from the seeded baseline — no assistant reply is saved. -/
theorem chat_provider_failure (db : DB) (p : ChatRequest)
    (freshSid seedId userId asstId : String) (tSeed tUser tAsst : Int)
    (provider : String → Except String String) (l : Int) (e : String)
    (hl : p.history_limit = some l)
    (hp : provider (buildPrompt
        (get_history (dbAfterUserSave db p freshSid seedId userId tSeed tUser)
          (resolveSessionId p freshSid) l) p.text) = .error e) :
    (chat db p freshSid seedId userId asstId tSeed tUser tAsst provider).2
        = .error (.providerError ("Model error: " ++ e)) ∧
    (chat db p freshSid seedId userId asstId tSeed tUser tAsst provider).1
        = dbAfterUserSave db p freshSid seedId userId tSeed tUser ∧
    (⟨userId, resolveSessionId p freshSid, "user", p.text, tUser⟩ : Row)
        ∈ (chat db p freshSid seedId userId asstId tSeed tUser tAsst provider).1 ∧
    ((chat db p freshSid seedId userId asstId tSeed tUser tAsst provider).1.filter
        (fun r => r.role == "assistant"))
      = ((seedIfEmpty db (resolveSessionId p freshSid) (pyOrTen p.history_limit)
          seedId tSeed).filter (fun r => r.role == "assistant")) := by
  have hchat : chat db p freshSid seedId userId asstId tSeed tUser tAsst provider
      = (dbAfterUserSave db p freshSid seedId userId tSeed tUser,
          .error (.providerError ("Model error: " ++ e))) := by
    unfold chat
    rw [hl]
    simp only [hp]
  refine ⟨by rw [hchat], by rw [hchat], ?_, ?_⟩
  · rw [hchat]
    simp [dbAfterUserSave, save_message]
  · rw [hchat]
    simp [dbAfterUserSave, save_message, List.filter_append]

/-- C3, witness: a provider that always fails, called on an empty store,
leaves exactly the seed greeting plus the user turn behind. -/
theorem chat_provider_failure_witness :
    ((⟨some "s", "hi", some 10⟩ : ChatRequest).history_limit = some 10) ∧
    (chat [] ⟨some "s", "hi", some 10⟩ "f" "g" "u" "a" 1 2 3
        (fun _ => .error "boom")).2
      = .error (.providerError ("Model error: " ++ "boom")) ∧
    (chat [] ⟨some "s", "hi", some 10⟩ "f" "g" "u" "a" 1 2 3
        (fun _ => .error "boom")).1
      = dbAfterUserSave [] ⟨some "s", "hi", some 10⟩ "f" "g" "u" 1 2 ∧
    (⟨"u", resolveSessionId ⟨some "s", "hi", some 10⟩ "f", "user", "hi", 2⟩ : Row)
      ∈ (chat [] ⟨some "s", "hi", some 10⟩ "f" "g" "u" "a" 1 2 3
          (fun _ => .error "boom")).1 ∧
    ((chat [] ⟨some "s", "hi", some 10⟩ "f" "g" "u" "a" 1 2 3
        (fun _ => .error "boom")).1.filter (fun r => r.role == "assistant"))
      = ((seedIfEmpty [] (resolveSessionId ⟨some "s", "hi", some 10⟩ "f")
          (pyOrTen (some 10)) "g" 1).filter (fun r => r.role == "assistant")) :=
  ⟨rfl, chat_provider_failure [] ⟨some "s", "hi", some 10⟩ "f" "g" "u" "a" 1 2 3
    (fun _ => .error "boom") 10 "boom" rfl rfl⟩

/-- C9: a payload whose `history_limit` is the explicit null passes the
seeding read with the substituted default 10 (`payload.history_limit or
10`), but line 122 hands the raw null to `get_history`, whose `limit * 2`
raises an unhandled `TypeError` — after the user turn was already
persisted. -/
theorem chat_null_history_limit (db : DB) (p : ChatRequest)
    (freshSid seedId userId asstId : String) (tSeed tUser tAsst : Int)
    (provider : String → Except String String)
    (hl : p.history_limit = none) :
    (chat db p freshSid seedId userId asstId tSeed tUser tAsst provider).2
        = .error .typeError ∧
    (chat db p freshSid seedId userId asstId tSeed tUser tAsst provider).1
        = dbAfterUserSave db p freshSid seedId userId tSeed tUser ∧
    (⟨userId, resolveSessionId p freshSid, "user", p.text, tUser⟩ : Row)
        ∈ (chat db p freshSid seedId userId asstId tSeed tUser tAsst provider).1 ∧
    pyOrTen p.history_limit = 10 := by
  have hchat : chat db p freshSid seedId userId asstId tSeed tUser tAsst provider
      = (dbAfterUserSave db p freshSid seedId userId tSeed tUser,
          .error .typeError) := by
    unfold chat
    rw [hl]
  refine ⟨by rw [hchat], by rw [hchat], ?_, by rw [hl]; rfl⟩
  rw [hchat]
  simp [dbAfterUserSave, save_message]

/-- C9, witness: an explicit-null `history_limit` on a store already
holding a seed turn aborts with the type error, the user turn saved. -/
theorem chat_null_history_limit_witness :
    ((⟨some "s", "hi", none⟩ : ChatRequest).history_limit = none) ∧
    (chat [⟨"g", "s", "assistant", greeting, 1⟩] ⟨some "s", "hi", none⟩
        "f" "g2" "u" "a" 1 2 3 (fun _ => .ok "yo")).2
      = .error .typeError ∧
    (chat [⟨"g", "s", "assistant", greeting, 1⟩] ⟨some "s", "hi", none⟩
        "f" "g2" "u" "a" 1 2 3 (fun _ => .ok "yo")).1
      = dbAfterUserSave [⟨"g", "s", "assistant", greeting, 1⟩]
          ⟨some "s", "hi", none⟩ "f" "g2" "u" 1 2 ∧
    (⟨"u", resolveSessionId ⟨some "s", "hi", none⟩ "f", "user", "hi", 2⟩ : Row)
      ∈ (chat [⟨"g", "s", "assistant", greeting, 1⟩] ⟨some "s", "hi", none⟩
          "f" "g2" "u" "a" 1 2 3 (fun _ => .ok "yo")).1 ∧
    pyOrTen (⟨some "s", "hi", none⟩ : ChatRequest).history_limit = 10 :=
  ⟨rfl, chat_null_history_limit [⟨"g", "s", "assistant", greeting, 1⟩]
    ⟨some "s", "hi", none⟩ "f" "g2" "u" "a" 1 2 3 (fun _ => .ok "yo") rfl⟩

/-- C5: the new user text is always the final prompt line before the
`"Assistant:"` cue, whatever the re-fetch returned; and whenever the
re-fetch captures the just-persisted user turn, the line `"User: <text>"`
occurs at least twice among the prompt lines (for text with no surface
whitespace, so the stored, stripped copy renders identically). -/
theorem chat_prompt_user_line_duplication (db : DB) (p : ChatRequest)
    (freshSid seedId userId : String) (tSeed tUser : Int) (l : Int)
    (_hl : p.history_limit = some l)
    (htrim : pyStrip p.text = p.text) :
    (promptLines
        (get_history (dbAfterUserSave db p freshSid seedId userId tSeed tUser)
          (resolveSessionId p freshSid) l) p.text).getLast?
      = some ("User: " ++ p.text) ∧
    ((⟨"user", p.text, tUser⟩ : Msg)
        ∈ get_history (dbAfterUserSave db p freshSid seedId userId tSeed tUser)
            (resolveSessionId p freshSid) l →
      2 ≤ (promptLines
          (get_history (dbAfterUserSave db p freshSid seedId userId tSeed tUser)
            (resolveSessionId p freshSid) l) p.text).count ("User: " ++ p.text)) := by
  constructor
  · unfold promptLines
    exact List.getLast?_concat _
  · intro hm
    unfold promptLines
    rw [List.count_append]
    have hr : renderLine ⟨"user", p.text, tUser⟩ = "User: " ++ p.text := by
      simp [renderLine, htrim]
    have hmem : ("User: " ++ p.text)
        ∈ (get_history (dbAfterUserSave db p freshSid seedId userId tSeed tUser)
            (resolveSessionId p freshSid) l).map renderLine := by
      exact List.mem_map.mpr ⟨_, hm, hr⟩
    have h1 : 1 ≤ ((get_history (dbAfterUserSave db p freshSid seedId userId tSeed tUser)
        (resolveSessionId p freshSid) l).map renderLine).count ("User: " ++ p.text) :=
      List.one_le_count_iff.mpr hmem
    have h2 : (["User: " ++ p.text] : List String).count ("User: " ++ p.text) = 1 := by
      simp
    omega

/-- C5, witness: a request on a freshly seeded session with the default
limit re-captures the just-saved user turn, and its line appears twice. -/
theorem chat_prompt_user_line_duplication_witness :
    ((⟨some "s", "hi", some 10⟩ : ChatRequest).history_limit = some 10) ∧
    pyStrip "hi" = "hi" ∧
    (⟨"user", "hi", 2⟩ : Msg)
      ∈ get_history (dbAfterUserSave [] ⟨some "s", "hi", some 10⟩ "f" "g" "u" 1 2)
          (resolveSessionId ⟨some "s", "hi", some 10⟩ "f") 10 ∧
    2 ≤ (promptLines
        (get_history (dbAfterUserSave [] ⟨some "s", "hi", some 10⟩ "f" "g" "u" 1 2)
          (resolveSessionId ⟨some "s", "hi", some 10⟩ "f") 10) "hi").count
        ("User: " ++ "hi") :=
  ⟨rfl, by decide, by decide,
    (chat_prompt_user_line_duplication [] ⟨some "s", "hi", some 10⟩ "f" "g" "u" 1 2 10
      rfl (by decide)).2 (by decide)⟩

/-- C7: the store is append-only: a sequence of `save_message` calls only
concatenates rows (every previously stored row persists unchanged, in
place), the per-session view is the appended rows in creation order, and a
read whose limit covers the whole session returns exactly those rows,
oldest-first, projected to role/content/created_at. -/
theorem store_append_only (db : DB) (calls : List Row) (sid : String) (L : Int)
    (hC : Chrono (rowsFor sid (appendAll db calls)))
    (hL : 0 ≤ L)
    (hbig : (rowsFor sid (appendAll db calls)).length ≤ (L * 2).toNat) :
    appendAll db calls = db ++ calls ∧
    rowsFor sid (appendAll db calls)
      = rowsFor sid db ++ calls.filter (fun r => r.session_id == sid) ∧
    get_history (appendAll db calls) sid L
      = (rowsFor sid (appendAll db calls)).map toMsg := by
  refine ⟨appendAll_eq_append db calls, ?_, ?_⟩
  · rw [appendAll_eq_append]
    simp [rowsFor, List.filter_append]
  · rw [get_history_nonneg_chrono _ _ _ hL hC]
    have hz : (rowsFor sid (appendAll db calls)).length - (L * 2).toNat = 0 := by
      omega
    rw [hz, List.drop_zero]

/-- C7, witness: two appends on the empty store, read back whole with
limit 5. -/
theorem store_append_only_witness :
    Chrono (rowsFor "s" (appendAll [] [⟨"a", "s", "user", "x", 1⟩, ⟨"b", "s", "assistant", "y", 2⟩])) ∧
    (0 : Int) ≤ 5 ∧
    (rowsFor "s" (appendAll [] [⟨"a", "s", "user", "x", 1⟩, ⟨"b", "s", "assistant", "y", 2⟩])).length
      ≤ ((5 : Int) * 2).toNat ∧
    (appendAll [] [⟨"a", "s", "user", "x", 1⟩, ⟨"b", "s", "assistant", "y", 2⟩]
        = [] ++ [⟨"a", "s", "user", "x", 1⟩, ⟨"b", "s", "assistant", "y", 2⟩] ∧
      rowsFor "s" (appendAll [] [⟨"a", "s", "user", "x", 1⟩, ⟨"b", "s", "assistant", "y", 2⟩])
        = rowsFor "s" []
          ++ [⟨"a", "s", "user", "x", 1⟩, ⟨"b", "s", "assistant", "y", 2⟩].filter
              (fun r => r.session_id == "s") ∧
      get_history (appendAll [] [⟨"a", "s", "user", "x", 1⟩, ⟨"b", "s", "assistant", "y", 2⟩]) "s" 5
        = (rowsFor "s" (appendAll [] [⟨"a", "s", "user", "x", 1⟩, ⟨"b", "s", "assistant", "y", 2⟩])).map
            toMsg) :=
  ⟨by decide, by decide, by decide,
    store_append_only [] [⟨"a", "s", "user", "x", 1⟩, ⟨"b", "s", "assistant", "y", 2⟩]
      "s" 5 (by decide) (by decide) (by decide)⟩

/-- C10: the rendering at server.py lines 124-130 is total over arbitrary
stored role strings: exactly the role `"user"` gets the label `"User"`,
and every other role string — not only `"assistant"` — gets the label
`"Assistant"`. -/
theorem renderLine_role_mapping (m : Msg) :
    (m.role = "user" → renderLine m = "User: " ++ pyStrip m.content) ∧
    (m.role ≠ "user" → renderLine m = "Assistant: " ++ pyStrip m.content) := by
  constructor <;> intro h <;> simp [renderLine, h]

/-- C4: over transcripts whose roles are the data model's two role
strings, the built prompt is exactly one `"<RoleLabel>: <stripped
content>"` line per turn in transcript order — labels mapped
User→"User", Assistant→"Assistant" — joined by newline, then a final
`"User: "` line carrying the new text, then the bare `"Assistant:"` cue;
and the output is determined by the transcript and the new text alone. -/
theorem buildPrompt_shape_deterministic (convo : List Msg) (text : String)
    (h : ∀ m ∈ convo, m.role = "user" ∨ m.role = "assistant") :
    buildPrompt convo text
      = String.intercalate "\n"
          ((convo.map fun m => specRoleLabel m.role ++ ": " ++ pyStrip m.content)
            ++ ["User: " ++ text]) ++ "\nAssistant:" ∧
    (∀ convo2 text2, convo = convo2 → text = text2 →
      buildPrompt convo text = buildPrompt convo2 text2) := by
  constructor
  · unfold buildPrompt promptLines
    have hmap : convo.map renderLine
        = convo.map (fun m => specRoleLabel m.role ++ ": " ++ pyStrip m.content) := by
      apply List.map_congr_left
      intro m hm
      rcases h m hm with hu | ha
      · simp [renderLine, specRoleLabel, hu, ← String.append_assoc]
      · simp [renderLine, specRoleLabel, ha, ← String.append_assoc]
    rw [hmap]
  · intro convo2 text2 hc ht
    rw [hc, ht]

/-- C4, witness: a two-turn transcript with both roles and padded contents
realizes the prompt shape of `buildPrompt_shape_deterministic`. -/
theorem buildPrompt_shape_deterministic_witness :
    (∀ m ∈ [(⟨"user", " a ", 1⟩ : Msg), ⟨"assistant", "b", 2⟩],
      m.role = "user" ∨ m.role = "assistant") ∧
    buildPrompt [(⟨"user", " a ", 1⟩ : Msg), ⟨"assistant", "b", 2⟩] "q"
      = String.intercalate "\n"
          (([(⟨"user", " a ", 1⟩ : Msg), ⟨"assistant", "b", 2⟩].map
              fun m => specRoleLabel m.role ++ ": " ++ pyStrip m.content)
            ++ ["User: " ++ "q"]) ++ "\nAssistant:" :=
  ⟨by decide,
    (buildPrompt_shape_deterministic [(⟨"user", " a ", 1⟩ : Msg), ⟨"assistant", "b", 2⟩]
      "q" (by decide)).1⟩

/-- C6: the seed step (server.py lines 111-114) is idempotent on stored
data: a session that already holds a turn is left unchanged, and an empty
session gets exactly one Assistant turn carrying the fixed greeting.  The
limit used by the seed check is `payload.history_limit or 10`, which is
never `0`, so the emptiness test is accurate. -/
theorem ensureSeeded_idempotent (db : DB) (sid : String) (hl : Option Int)
    (seedId : String) (tSeed : Int) :
    (rowsFor sid db ≠ [] →
      seedIfEmpty db sid (pyOrTen hl) seedId tSeed = db) ∧
    (rowsFor sid db = [] →
      seedIfEmpty db sid (pyOrTen hl) seedId tSeed
        = db ++ [⟨seedId, sid, "assistant", greeting, tSeed⟩]) := by
  have hiff := get_history_length_eq_zero_iff db sid (pyOrTen hl) (pyOrTen_ne_zero hl)
  constructor
  · intro hne
    unfold seedIfEmpty
    rw [if_neg (fun hz => hne (hiff.mp hz))]
  · intro hnil
    unfold seedIfEmpty
    rw [if_pos (hiff.mpr hnil)]
    rfl

/-- C6, witness: seeding the empty store appends exactly the greeting
turn. -/
theorem ensureSeeded_idempotent_witness :
    rowsFor "s" [] = [] ∧
    seedIfEmpty [] "s" (pyOrTen (some 10)) "g" 7
      = [] ++ [⟨"g", "s", "assistant", greeting, 7⟩] :=
  ⟨by decide, (ensureSeeded_idempotent [] "s" (some 10) "g" 7).2 (by decide)⟩

/-- C10, witness: the foreign role string `"system"` is rendered with the
`"Assistant"` label. -/
theorem renderLine_role_mapping_witness :
    ("system" : String) ≠ "user" ∧
    renderLine ⟨"system", "x", 0⟩ = "Assistant: " ++ pyStrip "x" :=
  ⟨by decide, (renderLine_role_mapping ⟨"system", "x", 0⟩).2 (by decide)⟩

end AIChat
